import Mathlib

/-!
# Verification of the cutly Telegram bot core

Shallow embedding of the repository's upload-session aggregator
(`src/core/upload_session.py`), finish-upload finalization and
media detection (`src/main.py`), random code generation and broadcast
(`src/utils/helpers.py`), the channel cache layer
(`src/services/channel.py`, `src/core/cache.py`, `src/main.py`),
the membership gate (`src/main.py`), and the password-protected
retrieval flow (`src/main.py`).

Python `raise` is modelled with `Except PyError`; Python's `random.choice`
is modelled by an explicit pick oracle; network/transport outcomes are
modelled by outcome oracles supplied as arguments.
-/

set_option maxRecDepth 10000

namespace Cutly

/-- Python runtime errors raised by the embedded code. -/
inductive PyError where
  | valueError (msg : String)
  | typeError (msg : String)
  | keyError (key : String)
  deriving DecidableEq, Repr

/-! ## `utils/helpers.py`: `generate_random_text` -/

/-- `string.ascii_letters` (Python). -/
def ascii_letters : List Char :=
  "abcdefghijklmnopqrstuvwxyzABCDEFGHIJKLMNOPQRSTUVWXYZ".data

/-- `string.digits` (Python). -/
def string_digits : List Char := "0123456789".data

/-- `characters = string.ascii_letters + string.digits`
(`src/utils/helpers.py:48`). -/
def characters : List Char := ascii_letters ++ string_digits

/-- The loop `"".join(random.choice(characters) for _ in range(length))`
(`src/utils/helpers.py:49`), with `random.choice` modelled by the pick
oracle `pick` choosing an index into `characters` for each position. -/
def random_text_core (length : Nat) (pick : Nat → Fin characters.length) : String :=
  String.mk ((List.range length).map fun i => characters.get (pick i))

/-- `generate_random_text` (`src/utils/helpers.py:27-52`): raises
`ValueError` when `length < 1`, otherwise draws `length` random characters
from `characters` and prepends `existing_text` when it is non-empty.
(Python's `int` also admits negative lengths; that region also satisfies
`length < 1` and raises, so `Nat` loses no reachable behaviour.) -/
def generate_random_text (length : Nat) (existing_text : String)
    (pick : Nat → Fin characters.length) : Except PyError String :=
  if length < 1 then
    .error (.valueError "length must be greater than zero")
  else
    let random_text := random_text_core length pick
    if existing_text ≠ "" then
      .ok (existing_text ++ random_text)
    else
      .ok random_text

/-! ## `src/core/upload_session.py` -/

/-- `UploadedFile` dataclass (`src/core/upload_session.py:16-36`).
`file_reference` (Python `bytes`) is a byte list. -/
structure UploadedFile where
  message_id : Nat
  media_type : String
  size : Nat
  file_id : Int
  access_hash : Int
  file_reference : List Nat
  file_name : Option String := none
  deriving DecidableEq, Repr

/-- `UploadSession` dataclass (`src/core/upload_session.py:39-54`). -/
structure UploadSession where
  user_id : Int
  files : List UploadedFile := []
  total_size : Nat := 0
  deriving DecidableEq, Repr

/-- `UploadSession.add_file` (`src/core/upload_session.py:56-87`):
appends the new `UploadedFile` and adds its size to the running total. -/
def UploadSession.add_file (s : UploadSession) (message_id : Nat)
    (media_type : String) (size : Nat) (file_id : Int) (access_hash : Int)
    (file_reference : List Nat) (file_name : Option String := none) :
    UploadSession :=
  { s with
    files := s.files ++ [{ message_id := message_id, media_type := media_type,
                           size := size, file_id := file_id,
                           access_hash := access_hash,
                           file_reference := file_reference,
                           file_name := file_name }]
    total_size := s.total_size + size }

/-- Value type of the Python summary dict: media-kind counters and the
total count are ints, `total_size_mb` is the rounded megabyte figure
(stored here in hundredths of a megabyte). -/
inductive SummaryValue where
  | count (n : Nat)
  | mb (hundredths : Nat)
  deriving DecidableEq, Repr

/-- Round-half-to-even division, the rounding mode of CPython's
`round(x, 2)`. Returns the nearest integer to `num / den`, ties to even. -/
def roundHalfEvenDiv (num den : Nat) : Nat :=
  let q := num / den
  let r := num % den
  if 2 * r < den then q
  else if den < 2 * r then q + 1
  else if q % 2 = 0 then q else q + 1

/-- `round(self.total_size / (1024 * 1024), 2)`
(`src/core/upload_session.py:107`), expressed in hundredths of a
megabyte.  For `total_size < 2^53` the float quotient is exact, and
CPython's `round(float, 2)` then rounds the exact value half-to-even at
two decimals, which is what this computes. -/
def round_mb_hundredths (total_size : Nat) : Nat :=
  roundHalfEvenDiv (total_size * 100) (1024 * 1024)

/-- `UploadSession.get_summary` (`src/core/upload_session.py:89-116`),
as the literal Python dict: an ordered key/value list.  Only the four
kinds `photo`, `video`, `voice`, `document` get a counter key. -/
def UploadSession.get_summary (s : UploadSession) :
    List (String × SummaryValue) :=
  let photos := (s.files.filter (fun f => f.media_type = "photo")).length
  let videos := (s.files.filter (fun f => f.media_type = "video")).length
  let voices := (s.files.filter (fun f => f.media_type = "voice")).length
  let documents := (s.files.filter (fun f => f.media_type = "document")).length
  [("photos", .count photos),
   ("videos", .count videos),
   ("voices", .count voices),
   ("documents", .count documents),
   ("total_count", .count s.files.length),
   ("total_size_mb", .mb (round_mb_hundredths s.total_size))]

/-- `UploadSession.clear` (`src/core/upload_session.py:118-122`). -/
def UploadSession.clear (s : UploadSession) : UploadSession :=
  { s with files := [], total_size := 0 }

/-- `UploadSession.is_empty` (`src/core/upload_session.py:124-130`). -/
def UploadSession.is_empty (s : UploadSession) : Bool :=
  s.files.length = 0

/-- `UploadSessionManager._sessions` (`src/core/upload_session.py:147-149`):
a Python dict keyed by user id, modelled as a keyed lookup function
(a dict holds at most one session per user id). -/
def UploadSessionManager := Int → Option UploadSession

/-- The empty manager (`UploadSessionManager.__init__`). -/
def UploadSessionManager.empty : UploadSessionManager := fun _ => none

/-- `UploadSessionManager.start_session` (`src/core/upload_session.py:151-168`):
if a session exists it is cleared in place and reused, otherwise a fresh
`UploadSession(user_id=user_id)` is stored; the (empty) session is
returned along with the updated manager. -/
def UploadSessionManager.start_session (m : UploadSessionManager)
    (user_id : Int) : UploadSessionManager × UploadSession :=
  match m user_id with
  | some s =>
      let s' := s.clear
      (fun u => if u = user_id then some s' else m u, s')
  | none =>
      let s' : UploadSession := { user_id := user_id }
      (fun u => if u = user_id then some s' else m u, s')

/-- `UploadSessionManager.get_session` (`src/core/upload_session.py:170-179`). -/
def UploadSessionManager.get_session (m : UploadSessionManager)
    (user_id : Int) : Option UploadSession :=
  m user_id

/-- `UploadSessionManager.add_file` (`src/core/upload_session.py:192-216`).
When no session exists it raises
`ValueError(f"No active upload session for user {user_id}")`.  Otherwise
it executes `session.add_file(message_id, media_type, size, file_name)`:
four positional arguments for a method whose signature
(`src/core/upload_session.py:56-65`) requires six
(`message_id, media_type, size, file_id, access_hash, file_reference`)
before the optional `file_name`.  Python binds `file_name` to the
`file_id` parameter, finds `access_hash` and `file_reference` unbound, and
raises `TypeError` before the method body runs, so the session is never
modified. -/
def UploadSessionManager.add_file (m : UploadSessionManager) (user_id : Int)
    (message_id : Nat) (media_type : String) (size : Nat)
    (file_name : Option String := none) :
    Except PyError UploadSessionManager :=
  match m user_id with
  | none => .error (.valueError "No active upload session for user")
  | some _ =>
      .error (.typeError
        "add_file() missing 2 required positional arguments: 'access_hash' and 'file_reference'")

/-- `UploadSessionManager.end_session` (`src/core/upload_session.py:218-226`):
deletes the user's entry when present. -/
def UploadSessionManager.end_session (m : UploadSessionManager)
    (user_id : Int) : UploadSessionManager :=
  fun u => if u = user_id then none else m u

/-- `UploadSessionManager.cancel_session` (`src/core/upload_session.py:236-253`):
returns the backup-channel message ids of the session's files in order,
then ends the session; `[]` when no session exists. -/
def UploadSessionManager.cancel_session (m : UploadSessionManager)
    (user_id : Int) : List Nat × UploadSessionManager :=
  match m.get_session user_id with
  | none => ([], m)
  | some s => (s.files.map (fun f => f.message_id), m.end_session user_id)

/-! ## `src/main.py`: media detection and finish-upload finalization -/

/-- The media-relevant shape of an incoming Telegram message, as far as
`detect_media_payload` (`src/main.py:469-525`) inspects it: either no
media / a web-page preview, a photo, a document carrying the listed
attribute flags, or some other media class. -/
inductive TgMedia where
  /-- `not message.media` or `MessageMediaWebPage`. -/
  | noneOrWebPage
  /-- `MessageMediaPhoto`. -/
  | photo
  /-- `MessageMediaDocument` with its attribute list summarised:
  whether a sticker / animated / video attribute is present, and
  `some voice` when an audio attribute with that `voice` flag is. -/
  | document (sticker animated video : Bool) (audio : Option Bool)
  /-- Any other `message.media` class. -/
  | other

/-- The `media_type` computed by `detect_media_payload`
(`src/main.py:482-523`): `none` models the `ValueError` branches.
The document branches are tested in source order
(sticker, animated, video, audio-with-voice-flag, default `"document"`). -/
def detect_media_type : TgMedia → Option String
  | .noneOrWebPage => none
  | .photo => some "photo"
  | .document sticker animated video audio =>
      some (if sticker then "sticker"
            else if animated then "animation"
            else if video then "video"
            else match audio with
                 | some voice => if voice then "voice" else "audio"
                 | none => "document")
  | .other => none

/-- A `File` row as assembled by `handle_finish_upload`
(`src/main.py:1896-1908`) and persisted via `create_file_from_db`. -/
structure FileRecord where
  type : String
  code : String
  file_id : Int
  access_hash : Int
  file_reference : List Nat
  message_id : Nat
  owner_id : Int
  size : Nat
  album_id : Option String
  album_order : Nat
  deriving DecidableEq, Repr

/-- The loop of `handle_finish_upload` (`src/main.py:1896-1908`): one
`File` dict per session item, in session order; item `0` keeps the bare
`code`, item `idx ≥ 1` gets `f"{code}_part{idx}"`; all share `album_id`
and get `album_order = idx`. -/
def finalize_records (files : List UploadedFile) (owner_id : Int)
    (code : String) (album_id : Option String) : List FileRecord :=
  files.enum.map fun p =>
    { type := p.2.media_type
      code := if p.1 = 0 then code else code ++ "_part" ++ Nat.repr p.1
      file_id := p.2.file_id
      access_hash := p.2.access_hash
      file_reference := p.2.file_reference
      message_id := p.2.message_id
      owner_id := owner_id
      size := p.2.size
      album_id := album_id
      album_order := p.1 }

/-- The code-assignment core of `handle_finish_upload`
(`src/main.py:1889-1908`): `code = generate_random_text(15)`,
`album_id = generate_random_text(20) if len(session.files) > 1 else None`,
then the persistence loop.  The two `random.choice` streams are modelled
by the pick oracles `pickCode` and `pickAlbum`. -/
def handle_finish_upload_records (files : List UploadedFile)
    (owner_id : Int) (pickCode pickAlbum : Nat → Fin characters.length) :
    Except PyError (List FileRecord) :=
  match generate_random_text 15 "" pickCode with
  | .error e => .error e
  | .ok code =>
      if 1 < files.length then
        match generate_random_text 20 "" pickAlbum with
        | .error e => .error e
        | .ok tag => .ok (finalize_records files owner_id code (some tag))
      else
        .ok (finalize_records files owner_id code none)

/-- The summary consumption in `handle_finish_upload`
(`src/main.py:1922-1936`): the message template is filled with
`summary['photos']`, `summary['videos']`, `summary['voices']`,
`summary['audios']`, `summary['documents']`, `summary['total_size_mb']`.
A missing key raises `KeyError`. -/
def dict_get (d : List (String × SummaryValue)) (key : String) :
    Except PyError SummaryValue :=
  match d.lookup key with
  | some v => .ok v
  | none => .error (.keyError key)

/-- The six summary values read by `handle_finish_upload`
(`src/main.py:1928-1933`), in source order. -/
def finish_upload_summary_values (s : UploadSession) :
    Except PyError (List SummaryValue) := do
  let summary := s.get_summary
  let photos ← dict_get summary "photos"
  let videos ← dict_get summary "videos"
  let voices ← dict_get summary "voices"
  let audios ← dict_get summary "audios"
  let documents ← dict_get summary "documents"
  let total_size_mb ← dict_get summary "total_size_mb"
  pure [photos, videos, voices, audios, documents, total_size_mb]

/-! ## Channel store and cache
(`src/core/models.py` `Channel`, `src/core/cache.py`,
`src/services/channel.py`, `src/main.py:250-307`) -/

/-- The `Channel` fields used by the cited code: durable id and link. -/
structure Channel where
  channel_id : String
  channel_link : String
  deriving DecidableEq, Repr

/-- One entry of the channel join map: `{"title": ..., "link": ...}`
(`src/main.py:300`). -/
structure ChannelEntry where
  title : String
  link : String
  deriving DecidableEq, Repr

/-- Durable channel table plus the Redis key `cutly:channels:all`:
`none` means the key is absent (never written or invalidated). -/
structure ChannelState where
  db : List Channel
  cache : Option (List (String × ChannelEntry))
  deriving Repr

/-- `create_channel_from_db` (`src/services/channel.py:70-99`):
`Channel.create(**data)` then `cache.invalidate_channel_cache()`, which
deletes the cached channel list. -/
def create_channel_from_db (st : ChannelState) (data : Channel) :
    Channel × ChannelState :=
  (data, { db := st.db ++ [data], cache := none })

/-- The `Q(channel_id=ident) | Q(channel_link=ident)` filter
(`src/services/channel.py:55-57`). -/
def channel_matches (ident : String) (ch : Channel) : Bool :=
  ch.channel_id = ident ∨ ch.channel_link = ident

/-- `delete_channel_from_db` (`src/services/channel.py:37-67`): deletes
every matching row, and only when at least one row was deleted
invalidates the cached channel list; returns `bool(deleted)`. -/
def delete_channel_from_db (st : ChannelState) (ident : String) :
    Bool × ChannelState :=
  let deleted := (st.db.filter (channel_matches ident)).length
  let db' := st.db.filter (fun ch => ¬ channel_matches ident ch)
  if 0 < deleted then
    (true, { db := db', cache := none })
  else
    (false, { db := db', cache := st.cache })

/-- Outcome of `client.get_entity` inside `fetch_channel_info`
(`src/main.py:271-288`). -/
inductive FetchOutcome where
  /-- `get_entity` succeeded and the entity has this title. -/
  | ok (title : String)
  /-- `get_entity` raised one of the caught classes
  (`ValueError`, `ChannelInvalidError`, `ChannelPrivateError`). -/
  | caughtError
  /-- `get_entity` raised any other exception; it propagates out of
  `fetch_channel_info` and `asyncio.gather(..., return_exceptions=True)`
  hands it back as an exception object. -/
  | uncaughtError
  deriving DecidableEq, Repr

/-- `fetch_channel_info` (`src/main.py:271-288`) together with the
result-collection loop (`src/main.py:296-300`): a successful or
caught-error fetch yields a payload entry (title degraded to the raw
`channel_id` on a caught error); an uncaught exception makes the loop
`continue`, dropping the channel. -/
def fetch_channel_entry (ch : Channel) :
    FetchOutcome → Option (String × ChannelEntry)
  | .ok title => some (ch.channel_id, { title := title, link := ch.channel_link })
  | .caughtError => some (ch.channel_id, { title := ch.channel_id, link := ch.channel_link })
  | .uncaughtError => none

/-- `build_channel_join_list` (`src/main.py:250-307`): return the cached
map on a hit; on a miss rebuild the payload from the durable store
channel by channel (outcomes supplied by the `fetch` oracle) and cache
it. -/
def build_channel_join_list (st : ChannelState)
    (fetch : Channel → FetchOutcome) :
    List (String × ChannelEntry) × ChannelState :=
  match st.cache with
  | some cached => (cached, st)
  | none =>
      let payload := st.db.filterMap fun ch => fetch_channel_entry ch (fetch ch)
      (payload, { st with cache := some payload })

/-! ## `src/main.py:354-411`: `enforce_channel_membership` -/

/-- Outcome of `client.get_permissions(entity, sender)` for one channel
(`src/main.py:374`). -/
inductive CheckOutcome where
  /-- The call returned permissions: the user is a member/admin. -/
  | member
  /-- The call raised `UserNotParticipantError`. -/
  | notParticipant
  /-- The call raised any other exception (caught at
  `src/main.py:383-386`). -/
  | otherError
  deriving DecidableEq, Repr

/-- `check_membership` (`src/main.py:361-386`): `None` on success,
the channel's `{title, link}` data on `UserNotParticipantError` and on
any other error alike. -/
def check_membership (outcome : CheckOutcome) (data : ChannelEntry) :
    Option ChannelEntry :=
  match outcome with
  | .member => none
  | .notParticipant => some data
  | .otherError => some data

/-- `enforce_channel_membership` (`src/main.py:354-411`): run all
per-channel checks (outcomes supplied by the `outcome` oracle), collect
the non-`None` results as `missing`, and pass iff `missing` is empty
(the empty-channel-set early return at `src/main.py:358` coincides with
this).  Returns `(pass, missing)`; on failure `missing` is the prompt
list, in channel-map order. -/
def enforce_channel_membership
    (channels : List (String × ChannelEntry))
    (outcome : String → CheckOutcome) : Bool × List ChannelEntry :=
  let results := channels.map fun p => check_membership (outcome p.1) p.2
  let missing := results.filterMap id
  (missing.isEmpty, missing)

/-! ## `src/utils/helpers.py:228-273`: `broadcast_to_users` -/

/-- The `User` field used by the broadcast loop (`user.userid`). -/
structure BotUser where
  userid : Int
  deriving DecidableEq, Repr

/-- One `send_with_limit` task (`src/utils/helpers.py:258-267`) per user:
`send_callback(user.userid)` is awaited exactly once inside `try`; a
success bumps `success_count`, any exception bumps `failed_count`.  The
fold also logs each attempted recipient, one entry per task, to record
that no send is ever retried.  The counters commute, so the sequential
fold computes the same totals as any concurrent interleaving of the
`asyncio.gather` tasks. -/
def broadcast_run (users : List BotUser) (sendFails : Int → Bool) :
    (Nat × Nat) × List Int :=
  users.foldl
    (fun acc u =>
      if sendFails u.userid then
        ((acc.1.1, acc.1.2 + 1), acc.2 ++ [u.userid])
      else
        ((acc.1.1 + 1, acc.1.2), acc.2 ++ [u.userid]))
    ((0, 0), [])

/-- `broadcast_to_users` (`src/utils/helpers.py:228-273`): returns
`(success_count, failed_count)`.  `asyncio.gather(..., return_exceptions=True)`
plus the per-task `try/except Exception` means the function itself never
raises; its total Lean type reflects that. -/
def broadcast_to_users (users : List BotUser) (sendFails : Int → Bool) :
    Nat × Nat :=
  (broadcast_run users sendFails).1

/-! ## Conversation state and the password-protected retrieval flow
(`src/core/state.py`, `src/main.py:121-217,540-575,1459-1491,1563-1583`) -/

/-- `State` enum (`src/core/state.py:8-28`). -/
inductive State where
  | USER_UPLOAD_FILE
  | USER_DELETE_FILE
  | USER_SEND_ID_FOR_SET_CAPTION
  | USER_SEND_TEXT_FOR_SET_CAPTION
  | USER_SEND_ID_FOR_UNSET_CAPTION
  | USER_SEND_ID_FOR_SET_PASSWORD
  | USER_SEND_TEXT_FOR_SET_PASSWORD
  | USER_SEND_ID_FOR_UNSET_PASSWORD
  | USER_SEND_PASSWORD_FOR_GET_FILE
  | USER_SEND_ID_FILE_FOR_TRACKING
  | USER_ADMIN_PANEL
  | USER_SET_ADMIN
  | USER_UNSET_ADMIN
  | USER_FORWARD_MESSAGE_FOR_ALL
  | USER_SEND_MESSAGE_FOR_ALL
  | USER_JOIN_CHANNEL_PANEL
  | USER_ADD_CHANNEL
  | USER_REMOVE_CHANNEL
  deriving DecidableEq, Repr

/-- The fields of a persisted `File` row read by the retrieval flow:
`password` is nullable, `owner_id` identifies the uploader. -/
structure DbFile where
  code : String
  owner_id : Int
  password : Option String
  deriving DecidableEq, Repr

/-- One user's slice of `CONVERSATION_STATE` / `CONVERSATION_OBJECT`
(`src/main.py:121-122`): an absent entry and a `None` value both mean
idle, so each is an `Option`. -/
structure UserConv where
  state : Option State
  object : Option DbFile
  deriving DecidableEq, Repr

/-- `reset_context` (`src/main.py:213-217`): clears the context object
and the state together. -/
def reset_context (_conv : UserConv) : UserConv :=
  { state := none, object := none }

/-- `USER_COMMANDS` (`src/main.py:129-154`). -/
def USER_COMMANDS : List String :=
  ["/start", "🗳 آپلود فایل", "🗑 حذف فایل", "📝 تنظیم کپشن", "🗞 حذف کپشن",
   "🔐 تنظیم پسورد", "🗝 حذف پسورد", "🗂 شناسه پیگیری فایل", "📂 تاریخچه اپلود",
   "🎫 حساب کاربری", "🛠 سازنده", "🔙 بازگشت", "/admin", "🎯 عضویت اجباری",
   "📭 فوروارد همگانی", "📬 پیام همگانی", "❌ حذف ادمین",
   "👥 نمایش لیست ادمین ها", "👤 افزودن ادمین", "📈آمار", "🔌بک آپ",
   "🔸 لیست کانال ها", "▫️ اضافه کردن کانال", "▪️ حذف کانال"]

/-- `text.startswith("/")` for a one-character prefix: the first
character is `'/'`. -/
def starts_with_slash (s : String) : Bool :=
  match s.data with
  | [] => false
  | c :: _ => c = '/'

/-- `is_user_command` (`src/main.py:165-168`):
`bool(text and (text.startswith("/") or text in USER_COMMANDS))`;
`event.raw_text` may be `None`. -/
def is_user_command : Option String → Bool
  | none => false
  | some s => s ≠ "" && (starts_with_slash s || USER_COMMANDS.contains s)

/-- Python truthiness of `file.password` (`if not file.password`,
`src/main.py:554`): `None` and the empty string are both falsy. -/
def password_falsy : Option String → Bool
  | none => true
  | some s => s = ""

/-- `file.password == (event.raw_text or "")` (`src/main.py:1471`):
a `None` password never equals a string. -/
def password_matches (password : Option String) (text : String) : Bool :=
  match password with
  | none => false
  | some s => s = text

/-- What `handle_get_file` does after the file was found. -/
inductive GetFileAction where
  /-- The file was sent to the requester. -/
  | sendFile
  /-- The password prompt was sent instead. -/
  | promptPassword
  deriving DecidableEq, Repr

/-- `handle_get_file` (`src/main.py:540-575`) after a successful lookup:
the handler has already `reset_context`-ed the sender (`src/main.py:546`);
a file without (truthy) password, or a request by its owner, is sent
directly; otherwise the file becomes the conversation object, the state
becomes `USER_SEND_PASSWORD_FOR_GET_FILE`, and the password prompt is
sent. -/
def handle_get_file_found (file : DbFile) (sender : Int) (_conv : UserConv) :
    GetFileAction × UserConv :=
  let conv₀ := reset_context _conv
  if password_falsy file.password || file.owner_id == sender then
    (.sendFile, conv₀)
  else
    (.promptPassword,
     { state := some .USER_SEND_PASSWORD_FOR_GET_FILE, object := some file })

/-- What `handle_passworded_file` does with one message. -/
inductive PasswordAction where
  /-- `is_user_command` matched: the handler returns without acting,
  leaving the event to the command handlers. -/
  | passThrough
  /-- No conversation object was present: context is reset silently. -/
  | staleContext
  /-- Password matched: the file is sent. -/
  | sendFile
  /-- Password mismatched: the wrong-password reprompt is sent. -/
  | reprompt
  deriving DecidableEq, Repr

/-- `handle_passworded_file` (`src/main.py:1459-1491`), for a user in
state `USER_SEND_PASSWORD_FOR_GET_FILE`: command text is passed through
untouched; with the stored file as context, a matching message sends the
file and resets state and context, a mismatch sends the reprompt and
leaves both untouched. -/
def handle_passworded_file (text : Option String) (conv : UserConv) :
    PasswordAction × UserConv :=
  if is_user_command text then
    (.passThrough, conv)
  else
    match conv.object with
    | none => (.staleContext, reset_context conv)
    | some file =>
        if password_matches file.password (text.getD "") then
          (.sendFile, reset_context conv)
        else
          (.reprompt, conv)

/-- What `handle_set_password` does with one message. -/
inductive SetPasswordResult where
  /-- Command text: handler declines. -/
  | passThrough
  /-- No conversation object: context reset silently. -/
  | staleContext
  /-- `file.password = event.raw_text or ""` was saved. -/
  | saved (newPassword : String)
  deriving DecidableEq, Repr

/-- `handle_set_password` (`src/main.py:1563-1583`): the only writer of
`File.password` from user input; it refuses command/keyboard-label text,
so no stored password ever satisfies `is_user_command`. -/
def handle_set_password (text : Option String) (conv : UserConv) :
    SetPasswordResult × UserConv :=
  if is_user_command text then
    (.passThrough, conv)
  else
    match conv.object with
    | none => (.staleContext, reset_context conv)
    | some _ => (.saved (text.getD ""), reset_context conv)

/-! ## Helper lemmas

Decimal-representation facts used to prove the generated share codes
pairwise distinct, and small list lemmas about `finalize_records`. -/

lemma digitChar_inj_lt_ten :
    ∀ d₁ < 10, ∀ d₂ < 10, Nat.digitChar d₁ = Nat.digitChar d₂ → d₁ = d₂ := by
  decide

lemma toDigitsCore_eq_digits (f : Nat) :
    ∀ (n : Nat) (acc : List Char), 0 < n → n < f →
    Nat.toDigitsCore 10 f n acc =
      ((Nat.digits 10 n).map Nat.digitChar).reverse ++ acc := by
  induction f with
  | zero => intro n acc _ h; omega
  | succ f ih =>
      intro n acc hn hf
      have hdig : Nat.digits 10 n = n % 10 :: Nat.digits 10 (n / 10) :=
        Nat.digits_def' (by norm_num) hn
      rw [Nat.toDigitsCore]
      by_cases hdiv : n / 10 = 0
      · simp only [hdiv, if_pos rfl]
        rw [hdig, hdiv]
        simp
      · simp only [hdiv, if_neg hdiv]
        have hpos : 0 < n / 10 := Nat.pos_of_ne_zero hdiv
        have hlt : n / 10 < f := by
          have : n / 10 < n := Nat.div_lt_self hn (by norm_num)
          omega
        rw [ih (n / 10) (Nat.digitChar (n % 10) :: acc) hpos hlt]
        rw [hdig]
        simp

lemma toDigits_eq_digits (n : Nat) (hn : 0 < n) :
    Nat.toDigits 10 n = ((Nat.digits 10 n).map Nat.digitChar).reverse := by
  unfold Nat.toDigits
  rw [toDigitsCore_eq_digits (n + 1) n [] hn (by omega)]
  simp

lemma map_digitChar_inj :
    ∀ (l₁ l₂ : List Nat), (∀ d ∈ l₁, d < 10) → (∀ d ∈ l₂, d < 10) →
    l₁.map Nat.digitChar = l₂.map Nat.digitChar → l₁ = l₂ := by
  intro l₁
  induction l₁ with
  | nil => intro l₂ _ _ h; cases l₂ <;> simp_all
  | cons a l ih =>
      intro l₂ h₁ h₂ h
      cases l₂ with
      | nil => simp_all
      | cons b l' =>
          simp only [List.map_cons, List.cons.injEq] at h
          have ha : a < 10 := h₁ a (by simp)
          have hb : b < 10 := h₂ b (by simp)
          have hab := digitChar_inj_lt_ten a ha b hb h.1
          subst hab
          have := ih l' (fun d hd => h₁ d (by simp [hd]))
            (fun d hd => h₂ d (by simp [hd])) h.2
          simp [this]

lemma repr_data (n : Nat) :
    (Nat.repr n).data =
      if n = 0 then ['0'] else ((Nat.digits 10 n).map Nat.digitChar).reverse := by
  by_cases hn : n = 0
  · subst hn; rfl
  · rw [if_neg hn]
    have h0 : 0 < n := Nat.pos_of_ne_zero hn
    show (Nat.toDigits 10 n).asString.data = _
    rw [toDigits_eq_digits n h0]
    rfl

lemma digits_ne_single_zero (n : Nat) (hn : 0 < n) :
    Nat.digits 10 n ≠ [0] := by
  intro h
  have := Nat.ofDigits_digits 10 n
  rw [h] at this
  simp [Nat.ofDigits] at this
  omega

lemma map_digitChar_reverse_ne_zero_str (n : Nat) (h0 : 0 < n)
    (hdata : ((Nat.digits 10 n).map Nat.digitChar).reverse = ['0']) : False := by
  have hrev : (Nat.digits 10 n).map Nat.digitChar = ['0'] := by
    have := congrArg List.reverse hdata
    simpa using this
  have hd : ∃ d, Nat.digits 10 n = [d] ∧ Nat.digitChar d = '0' := by
    cases hdig : Nat.digits 10 n with
    | nil => rw [hdig] at hrev; simp at hrev
    | cons a l =>
        rw [hdig] at hrev
        cases l with
        | nil =>
            simp only [List.map_cons, List.map_nil, List.cons.injEq] at hrev
            exact ⟨a, rfl, hrev.1⟩
        | cons b l' => simp at hrev
  obtain ⟨d, hdig, hchar⟩ := hd
  have hdlt : d < 10 := Nat.digits_lt_base (by norm_num) (by rw [hdig]; simp)
  have : d = 0 := digitChar_inj_lt_ten d hdlt 0 (by norm_num) hchar
  subst this
  exact digits_ne_single_zero n h0 hdig

lemma nat_repr_injective : Function.Injective Nat.repr := by
  intro m n h
  have hdata : (Nat.repr m).data = (Nat.repr n).data := by rw [h]
  rw [repr_data, repr_data] at hdata
  by_cases hm : m = 0 <;> by_cases hn : n = 0
  · omega
  · exfalso
    rw [if_pos hm, if_neg hn] at hdata
    exact map_digitChar_reverse_ne_zero_str n (Nat.pos_of_ne_zero hn) hdata.symm
  · exfalso
    rw [if_neg hm, if_pos hn] at hdata
    exact map_digitChar_reverse_ne_zero_str m (Nat.pos_of_ne_zero hm) hdata
  · rw [if_neg hm, if_neg hn] at hdata
    have := List.reverse_injective hdata
    have hmap := map_digitChar_inj _ _
      (fun d hd => Nat.digits_lt_base (by norm_num) hd)
      (fun d hd => Nat.digits_lt_base (by norm_num) hd) this
    exact Nat.digits_inj_iff.mp hmap

lemma repr_length_pos (n : Nat) : 0 < (Nat.repr n).length := by
  show 0 < (Nat.repr n).data.length
  rw [repr_data]
  by_cases hn : n = 0
  · simp [hn]
  · rw [if_neg hn]
    simp only [List.length_reverse, List.length_map]
    have : Nat.digits 10 n ≠ [] := Nat.digits_ne_nil_iff_ne_zero.mpr hn
    exact List.length_pos.mpr this

lemma random_text_core_length (n : Nat) (pick : Nat → Fin characters.length) :
    (random_text_core n pick).length = n := by
  simp [random_text_core, String.length]

lemma random_text_core_mem (n : Nat) (pick : Nat → Fin characters.length) :
    ∀ c ∈ (random_text_core n pick).data, c ∈ characters := by
  intro c hc
  simp only [random_text_core, List.mem_map, List.mem_range] at hc
  obtain ⟨i, _, rfl⟩ := hc
  exact List.get_mem _ _ _

lemma characters_alphanum : ∀ c ∈ characters, c.isAlphanum := by decide

lemma enum_map_fst_fun {α β : Type} (l : List α) (g : Nat → β) :
    l.enum.map (fun p => g p.1) = (List.range l.length).map g := by
  have h1 : l.enum.map (fun p => g p.1) = (l.enum.map Prod.fst).map g := by
    rw [List.map_map]; rfl
  rw [h1, List.enum_map_fst]

lemma finalize_records_map_code (files : List UploadedFile) (owner : Int)
    (code : String) (albumOpt : Option String) :
    (finalize_records files owner code albumOpt).map (fun r => r.code) =
      (List.range files.length).map
        (fun i => if i = 0 then code else code ++ "_part" ++ Nat.repr i) := by
  unfold finalize_records
  rw [List.map_map]
  exact enum_map_fst_fun files
    (fun i => if i = 0 then code else code ++ "_part" ++ Nat.repr i)

lemma finalize_records_map_album_order (files : List UploadedFile)
    (owner : Int) (code : String) (albumOpt : Option String) :
    (finalize_records files owner code albumOpt).map (fun r => r.album_order) =
      List.range files.length := by
  unfold finalize_records
  rw [List.map_map]
  have h := enum_map_fst_fun files (fun i : Nat => i)
  rw [List.map_id'] at h
  exact h

lemma finalize_records_map_album_id (files : List UploadedFile)
    (owner : Int) (code : String) (albumOpt : Option String) :
    (finalize_records files owner code albumOpt).map (fun r => r.album_id) =
      List.replicate files.length albumOpt := by
  unfold finalize_records
  rw [List.map_map]
  apply List.eq_replicate_iff.mpr
  refine ⟨by simp [List.enum_length], ?_⟩
  intro b hb
  simp only [List.mem_map] at hb
  obtain ⟨_, _, rfl⟩ := hb
  rfl

lemma finalize_records_length (files : List UploadedFile) (owner : Int)
    (code : String) (albumOpt : Option String) :
    (finalize_records files owner code albumOpt).length = files.length := by
  simp [finalize_records, List.enum_length]

/-- The index-to-code function of `finalize_records` is injective:
distinct session indices always get distinct share codes. -/
lemma finalize_code_inj (c : String) (i j : Nat)
    (h : (if i = 0 then c else c ++ "_part" ++ Nat.repr i) =
         (if j = 0 then c else c ++ "_part" ++ Nat.repr j)) : i = j := by
  by_cases hi : i = 0 <;> by_cases hj : j = 0
  · omega
  · exfalso
    rw [if_pos hi, if_neg hj] at h
    have := congrArg String.length h
    rw [String.length_append, String.length_append] at this
    have h5 : ("_part" : String).length = 5 := rfl
    have := repr_length_pos j
    omega
  · exfalso
    rw [if_neg hi, if_pos hj] at h
    have := congrArg String.length h
    rw [String.length_append, String.length_append] at this
    have h5 : ("_part" : String).length = 5 := rfl
    have := repr_length_pos i
    omega
  · rw [if_neg hi, if_neg hj] at h
    have hdata := congrArg String.data h
    simp only [String.data_append] at hdata
    rw [List.append_assoc, List.append_assoc] at hdata
    have := List.append_cancel_left hdata
    have := List.append_cancel_left this
    have hrepr : Nat.repr i = Nat.repr j := by
      cases hri : Nat.repr i with
      | mk d₁ =>
        cases hrj : Nat.repr j with
        | mk d₂ =>
          rw [hri, hrj] at this
          simp_all
    exact nat_repr_injective hrepr

/-! ## Claim theorems -/

/-- **C1.** For every upload session finalized with `N` items (`N ≥ 1`),
finalization generates one random 15-character alphanumeric bare code
assigned to the item at index 0; when `N > 1` a single album-group id is
generated and shared by all `N` persisted records and each item at index
`i ≥ 1` receives the unique code `{code}_part{i}`; when `N = 1` the album
id is `None`; and every persisted item's `album_order` equals its
insertion index in the session (`0..N-1`). -/
theorem upload_finalization_code_assignment
    (files : List UploadedFile) (owner : Int)
    (pickCode pickAlbum : Nat → Fin characters.length)
    (hN : 1 ≤ files.length) :
    ∃ records code,
      handle_finish_upload_records files owner pickCode pickAlbum = .ok records ∧
      code.length = 15 ∧
      (∀ c ∈ code.data, c ∈ characters ∧ c.isAlphanum) ∧
      records.length = files.length ∧
      records.map (fun r => r.code) =
        (List.range files.length).map
          (fun i => if i = 0 then code else code ++ "_part" ++ Nat.repr i) ∧
      (records.map (fun r => r.code)).head? = some code ∧
      (records.map (fun r => r.code)).Nodup ∧
      records.map (fun r => r.album_id) =
        List.replicate files.length
          (if 1 < files.length then some (random_text_core 20 pickAlbum) else none) ∧
      records.map (fun r => r.album_order) = List.range files.length := by
  refine ⟨finalize_records files owner (random_text_core 15 pickCode)
      (if 1 < files.length then some (random_text_core 20 pickAlbum) else none),
    random_text_core 15 pickCode, ?_, ?_, ?_, ?_, ?_, ?_, ?_, ?_, ?_⟩
  · by_cases h : 1 < files.length <;>
      simp [handle_finish_upload_records, generate_random_text, h]
  · exact random_text_core_length 15 pickCode
  · intro c hc
    have hmem := random_text_core_mem 15 pickCode c hc
    exact ⟨hmem, characters_alphanum c hmem⟩
  · exact finalize_records_length files owner _ _
  · exact finalize_records_map_code files owner _ _
  · rw [finalize_records_map_code files owner _ _]
    obtain ⟨k, hk⟩ : ∃ k, files.length = k + 1 := ⟨files.length - 1, by omega⟩
    rw [hk, List.range_succ_eq_map]
    simp
  · rw [finalize_records_map_code files owner _ _]
    exact List.Nodup.map_on
      (fun i _ j _ h => finalize_code_inj (random_text_core 15 pickCode) i j h)
      (List.nodup_range _)
  · exact finalize_records_map_album_id files owner _ _
  · exact finalize_records_map_album_order files owner _ _

/-- A fixed pick oracle (always the first character of the alphabet),
used to evaluate the random-text model at concrete inputs. -/
def pick0 : Nat → Fin characters.length := fun _ => ⟨0, by decide⟩

/-- Two concrete session items for evaluating the finalization model. -/
def witness_files : List UploadedFile :=
  [{ message_id := 1, media_type := "photo", size := 10, file_id := 1,
     access_hash := 1, file_reference := [] },
   { message_id := 2, media_type := "document", size := 20, file_id := 2,
     access_hash := 2, file_reference := [] }]

/-- Witness for C1: the finalization theorem applied to a concrete
two-item session. -/
theorem upload_finalization_code_assignment_witness :
    1 ≤ witness_files.length ∧
    (∃ records code,
      handle_finish_upload_records witness_files 7 pick0 pick0 = .ok records ∧
      code.length = 15 ∧
      (∀ c ∈ code.data, c ∈ characters ∧ c.isAlphanum) ∧
      records.length = witness_files.length ∧
      records.map (fun r => r.code) =
        (List.range witness_files.length).map
          (fun i => if i = 0 then code else code ++ "_part" ++ Nat.repr i) ∧
      (records.map (fun r => r.code)).head? = some code ∧
      (records.map (fun r => r.code)).Nodup ∧
      records.map (fun r => r.album_id) =
        List.replicate witness_files.length
          (if 1 < witness_files.length then some (random_text_core 20 pick0) else none) ∧
      records.map (fun r => r.album_order) = List.range witness_files.length) :=
  ⟨by decide,
   upload_finalization_code_assignment witness_files 7 pick0 pick0 (by decide)⟩

/-- **C2, counterexample.** A stored channel whose title lookup raises an
exception outside the three caught classes is *omitted* from the rebuilt
channel map, not kept with its raw identifier as title: rebuilding the
single-channel store under an uncaught fetch error yields an empty map,
not the map the claim predicts. -/
theorem channel_rebuild_omits_on_uncaught_error :
    (build_channel_join_list
        { db := [{ channel_id := "chan", channel_link := "https://t.me/chan" }],
          cache := none }
        (fun _ => .uncaughtError)).1 = [] ∧
    (build_channel_join_list
        { db := [{ channel_id := "chan", channel_link := "https://t.me/chan" }],
          cache := none }
        (fun _ => .uncaughtError)).1 ≠
      [("chan", { title := "chan", link := "https://t.me/chan" })] := by
  exact ⟨rfl, by decide⟩

/-- **C2, amended.** Every channel add, and every channel remove that
actually deletes a stored channel, deletes (invalidates) the cached
channel list before the mutating call returns; the next read rebuilds the
channel map from the durable store, where a title-resolution failure of
one of the *caught* classes (`ValueError`, `ChannelInvalidError`,
`ChannelPrivateError`) degrades to using the raw channel identifier as
that channel's title, a successful lookup keeps the resolved title, and a
resolution failure of any other class causes that single channel to be
omitted from the rebuilt map (the rebuild itself still completes and is
cached). -/
theorem channel_cache_invalidation_and_rebuild
    (st : ChannelState) (data : Channel) (ident : String)
    (db : List Channel) (fetch : Channel → FetchOutcome) :
    (create_channel_from_db st data).2.cache = none ∧
    (create_channel_from_db st data).2.db = st.db ++ [data] ∧
    (delete_channel_from_db st ident).2.cache =
      (if (delete_channel_from_db st ident).1 then none else st.cache) ∧
    ((delete_channel_from_db st ident).1 = true ↔
      ∃ ch ∈ st.db, channel_matches ident ch = true) ∧
    (∀ ch ∈ db, ∀ t, fetch ch = .ok t →
      (ch.channel_id, ({ title := t, link := ch.channel_link } : ChannelEntry)) ∈
        (build_channel_join_list { db := db, cache := none } fetch).1) ∧
    (∀ ch ∈ db, fetch ch = .caughtError →
      (ch.channel_id,
        ({ title := ch.channel_id, link := ch.channel_link } : ChannelEntry)) ∈
        (build_channel_join_list { db := db, cache := none } fetch).1) ∧
    (build_channel_join_list { db := db, cache := none } fetch).1 =
      db.filterMap (fun ch => fetch_channel_entry ch (fetch ch)) ∧
    (build_channel_join_list { db := db, cache := none } fetch).2.cache =
      some ((build_channel_join_list { db := db, cache := none } fetch).1) := by
  refine ⟨rfl, rfl, ?_, ?_, ?_, ?_, rfl, rfl⟩
  · by_cases h : 0 < (st.db.filter (channel_matches ident)).length <;>
      simp [delete_channel_from_db, h]
  · constructor
    · intro h
      by_contra hno
      push_neg at hno
      have hfil : st.db.filter (channel_matches ident) = [] :=
        List.filter_eq_nil_iff.mpr (by
          intro ch hch
          simp [hno ch hch])
      simp [delete_channel_from_db, hfil] at h
    · intro ⟨ch, hch, hmatch⟩
      have hmem : ch ∈ st.db.filter (channel_matches ident) :=
        List.mem_filter.mpr ⟨hch, hmatch⟩
      have hpos : 0 < (st.db.filter (channel_matches ident)).length :=
        List.length_pos.mpr (by intro h; rw [h] at hmem; simp at hmem)
      simp [delete_channel_from_db, hpos]
  · intro ch hch t hfetch
    show _ ∈ db.filterMap (fun ch => fetch_channel_entry ch (fetch ch))
    exact List.mem_filterMap.mpr ⟨ch, hch, by rw [hfetch]; rfl⟩
  · intro ch hch hfetch
    show _ ∈ db.filterMap (fun ch => fetch_channel_entry ch (fetch ch))
    exact List.mem_filterMap.mpr ⟨ch, hch, by rw [hfetch]; rfl⟩

lemma gate_missing_eq (channels : List (String × ChannelEntry))
    (outcome : String → CheckOutcome) :
    (channels.map (fun p => check_membership (outcome p.1) p.2)).filterMap id =
      (channels.filter (fun p => !(outcome p.1 == .member))).map (fun p => p.2) := by
  induction channels with
  | nil => rfl
  | cons p l ih =>
      rw [List.map_cons, List.filterMap_cons, List.filter_cons]
      cases houtcome : outcome p.1 with
      | member => simpa [check_membership, houtcome] using ih
      | notParticipant => simpa [check_membership, houtcome] using ih
      | otherError => simpa [check_membership, houtcome] using ih

lemma gate_pass_eq (channels : List (String × ChannelEntry))
    (outcome : String → CheckOutcome) :
    ((channels.map (fun p => check_membership (outcome p.1) p.2)).filterMap id).isEmpty =
      channels.all (fun p => outcome p.1 == .member) := by
  rw [gate_missing_eq]
  induction channels with
  | nil => rfl
  | cons p l ih =>
      rw [List.filter_cons, List.all_cons]
      cases houtcome : outcome p.1 with
      | member => simpa [houtcome] using ih
      | notParticipant => simp [houtcome]
      | otherError => simp [houtcome]

/-- **C3, counterexample.** A channel whose membership check raises an
error other than `UserNotParticipantError` also lands in the unmet-channel
prompt list: with one channel whose check raises a generic error, the
prompt list is that channel's entry even though no check raised
not-a-participant, so the list is not "exactly the not-a-participant
channels" (which would be empty here). -/
theorem membership_prompt_includes_other_errors :
    (enforce_channel_membership
        [("chan", { title := "Chan", link := "https://t.me/chan" })]
        (fun _ => .otherError)).2 =
      [{ title := "Chan", link := "https://t.me/chan" }] ∧
    ([("chan", ({ title := "Chan", link := "https://t.me/chan" } : ChannelEntry))].filter
        (fun p => (fun _ => CheckOutcome.otherError) p.1 == .notParticipant)).map
        (fun p => p.2) = [] ∧
    (enforce_channel_membership
        [("chan", { title := "Chan", link := "https://t.me/chan" })]
        (fun _ => .otherError)).1 = false := by
  exact ⟨rfl, rfl, rfl⟩

/-- **C3, amended.** For every user and required-channel set of size `K`,
the membership gate passes iff all `K` per-channel checks report
membership; a check that raises the not-a-participant error classifies
that channel as not a member, any other check error also conservatively
classifies it as not a member (fail-closed), and exactly the channels
whose checks did **not** report membership — those that raised
not-a-participant *or any other error* — appear in the unmet-channel
prompt list, in channel-map order. -/
theorem membership_gate_pass_and_prompt
    (channels : List (String × ChannelEntry))
    (outcome : String → CheckOutcome) :
    ((enforce_channel_membership channels outcome).1 =
      channels.all (fun p => outcome p.1 == .member)) ∧
    ((enforce_channel_membership channels outcome).2 =
      (channels.filter (fun p => !(outcome p.1 == .member))).map (fun p => p.2)) ∧
    (∀ data, check_membership .notParticipant data = some data) ∧
    (∀ data, check_membership .otherError data = some data) ∧
    (∀ data, check_membership .member data = none) := by
  refine ⟨?_, ?_, fun _ => rfl, fun _ => rfl, fun _ => rfl⟩
  · exact gate_pass_eq channels outcome
  · exact gate_missing_eq channels outcome

lemma broadcast_run_go (sendFails : Int → Bool) :
    ∀ (users : List BotUser) (s f : Nat) (log : List Int),
    users.foldl
      (fun acc u =>
        if sendFails u.userid then
          ((acc.1.1, acc.1.2 + 1), acc.2 ++ [u.userid])
        else
          ((acc.1.1 + 1, acc.1.2), acc.2 ++ [u.userid]))
      ((s, f), log) =
      ((s + (users.filter (fun u => !sendFails u.userid)).length,
        f + (users.filter (fun u => sendFails u.userid)).length),
       log ++ users.map (fun u => u.userid)) := by
  intro users
  induction users with
  | nil => intro s f log; simp
  | cons u l ih =>
      intro s f log
      rw [List.foldl_cons]
      by_cases h : sendFails u.userid
      · rw [if_pos h, ih]
        simp only [List.filter_cons, h, List.map_cons]
        refine congrArg₂ Prod.mk (congrArg₂ Prod.mk rfl ?_) ?_
        · simp; omega
        · simp
      · rw [if_neg h, ih]
        simp only [List.filter_cons, h, List.map_cons]
        refine congrArg₂ Prod.mk (congrArg₂ Prod.mk ?_ rfl) ?_
        · simp [h]; omega
        · simp

lemma length_filter_not_eq_sub (l : List BotUser) (p : BotUser → Bool) :
    (l.filter (fun u => !p u)).length = l.length - (l.filter p).length := by
  induction l with
  | nil => rfl
  | cons a l ih =>
      have hle := List.length_filter_le p l
      by_cases h : p a <;> simp [List.filter_cons, h, ih] <;> omega

/-- **C4.** For every list of `M` recipients whose per-recipient send
action always fails for exactly `F` of them and succeeds for the rest,
the broadcast operation returns `success = M - F` and `failed = F`, never
raises (the embedding is a total function: every per-task exception is
caught and tallied), and performs no retry of a failed send within the
same invocation: the attempt log holds exactly one entry per recipient,
in order. -/
theorem broadcast_counts_and_no_retry
    (users : List BotUser) (sendFails : Int → Bool) :
    broadcast_to_users users sendFails =
      (users.length - (users.filter (fun u => sendFails u.userid)).length,
       (users.filter (fun u => sendFails u.userid)).length) ∧
    (broadcast_run users sendFails).2 = users.map (fun u => u.userid) := by
  have hrun := broadcast_run_go sendFails users 0 0 []
  constructor
  · show (broadcast_run users sendFails).1 = _
    rw [broadcast_run, hrun]
    simp [length_filter_not_eq_sub]
  · rw [broadcast_run, hrun]
    simp

/-- A concrete session holding one item of media kind `"audio"`. -/
def audio_session : UploadSession :=
  { user_id := 1,
    files := [{ message_id := 10, media_type := "audio", size := 1048576,
                file_id := 3, access_hash := 3, file_reference := [] }],
    total_size := 1048576 }

/-- **C5 (code bug).** `detect_media_payload` can classify an item as
`"audio"` (a music file: an audio attribute with the voice flag unset),
but `get_summary` has no counter for that kind: a session holding one
audio item reports `photos = videos = voices = documents = 0` while
`total_count = 1`, so the item is counted under no media kind.  Worse,
`handle_finish_upload` formats its summary message with
`summary['audios']`, a key `get_summary` never emits, so *every*
finalization's summary read raises `KeyError('audios')`. -/
theorem summary_misses_audio_kind :
    detect_media_type (.document false false false (some false)) = some "audio" ∧
    audio_session.get_summary.lookup "photos" = some (.count 0) ∧
    audio_session.get_summary.lookup "videos" = some (.count 0) ∧
    audio_session.get_summary.lookup "voices" = some (.count 0) ∧
    audio_session.get_summary.lookup "documents" = some (.count 0) ∧
    audio_session.get_summary.lookup "total_count" = some (.count 1) ∧
    audio_session.get_summary.lookup "audios" = none ∧
    (∀ s : UploadSession,
      finish_upload_summary_values s = .error (.keyError "audios")) := by
  refine ⟨rfl, ?_, ?_, ?_, ?_, ?_, ?_, fun s => rfl⟩ <;> decide

/-- A concrete manager holding an active two-item session for user 1. -/
def witness_manager : UploadSessionManager :=
  fun u =>
    if u = 1 then
      some { user_id := 1, files := witness_files, total_size := 30 }
    else
      none

/-- **C6 (code bug).** With an active session, the manager-level
`add_file` never appends: it always raises `TypeError`, because it passes
four positional arguments to `UploadSession.add_file`, which requires six
(`file_name` binds to the `file_id` parameter and `access_hash`,
`file_reference` stay unbound).  Without a session it raises the
no-active-session `ValueError` as the claim says.  No invocation ever
returns successfully. -/
theorem manager_add_file_always_raises :
    UploadSessionManager.add_file witness_manager 1 100 "photo" 50000 none =
      .error (.typeError
        "add_file() missing 2 required positional arguments: 'access_hash' and 'file_reference'") ∧
    UploadSessionManager.add_file witness_manager 2 100 "photo" 50000 none =
      .error (.valueError "No active upload session for user") ∧
    (∀ (m : UploadSessionManager) (uid : Int) (mi : Nat) (mt : String)
       (sz : Nat) (fn : Option String) (m' : UploadSessionManager),
       UploadSessionManager.add_file m uid mi mt sz fn ≠ .ok m') := by
  refine ⟨rfl, rfl, ?_⟩
  intro m uid mi mt sz fn m' h
  unfold UploadSessionManager.add_file at h
  cases hm : m uid <;> rw [hm] at h <;> exact Except.noConfusion h

/-- A concrete password-protected stored file. -/
def pw_file : DbFile :=
  { code := "abc123", owner_id := 1, password := some "hunter2" }

/-- The conversation slice armed by `handle_get_file` for `pw_file`. -/
def pw_conv : UserConv :=
  { state := some .USER_SEND_PASSWORD_FOR_GET_FILE, object := some pw_file }

/-- **C7, counterexample.** A non-matching message that is a command is
*not* reprompted: with the awaiting-password state armed for a file whose
password is `"hunter2"`, the message `"/start"` does not match, yet the
handler passes it through without sending the wrong-password reprompt
(the claim predicted a reprompt for every non-matching message). -/
theorem password_command_not_reprompted :
    is_user_command (some "/start") = true ∧
    password_matches pw_file.password "/start" = false ∧
    handle_passworded_file (some "/start") pw_conv = (.passThrough, pw_conv) ∧
    (handle_passworded_file (some "/start") pw_conv).1 ≠ .reprompt := by
  exact ⟨rfl, rfl, rfl, by decide⟩

/-- **C7, amended.** For every stored file that has a (non-empty)
password, retrieval by a sender other than the owner does not send the
file but prompts for the password, setting the awaiting-password state
with the file as conversation context.  A subsequent message equal to the
password sends the file and clears both state and context (passwords are
never command text: the set-password handler refuses command and
keyboard-label input, so the command guard cannot swallow a correct
password).  A non-matching message that is not a command leaves state and
context unchanged and reprompts; a command message is instead passed
through to the command handlers, with state and context left unchanged
and no reprompt sent. -/
theorem password_flow_amended
    (file : DbFile) (sender : Int) (conv : UserConv) (pw : String)
    (text : Option String)
    (hpw : file.password = some pw) (hpw_ne : pw ≠ "")
    (howner : file.owner_id ≠ sender) :
    handle_get_file_found file sender conv =
      (.promptPassword,
       { state := some .USER_SEND_PASSWORD_FOR_GET_FILE, object := some file }) ∧
    (is_user_command (some pw) = false →
      handle_passworded_file (some pw)
          { state := some .USER_SEND_PASSWORD_FOR_GET_FILE, object := some file } =
        (.sendFile, { state := none, object := none })) ∧
    (is_user_command text = false → text.getD "" ≠ pw →
      handle_passworded_file text
          { state := some .USER_SEND_PASSWORD_FOR_GET_FILE, object := some file } =
        (.reprompt,
         { state := some .USER_SEND_PASSWORD_FOR_GET_FILE, object := some file })) ∧
    (is_user_command text = true →
      handle_passworded_file text
          { state := some .USER_SEND_PASSWORD_FOR_GET_FILE, object := some file } =
        (.passThrough,
         { state := some .USER_SEND_PASSWORD_FOR_GET_FILE, object := some file })) ∧
    (∀ (t : Option String) (c : UserConv) (res : String) (c' : UserConv),
      handle_set_password t c = (.saved res, c') →
      is_user_command (some res) = false) := by
  refine ⟨?_, ?_, ?_, ?_, ?_⟩
  · unfold handle_get_file_found
    have hfalsy : password_falsy file.password = false := by
      rw [hpw]; simpa [password_falsy] using hpw_ne
    have hbeq : (file.owner_id == sender) = false := by
      simpa using howner
    rw [hfalsy, hbeq]
    rfl
  · intro hcmd
    unfold handle_passworded_file
    rw [hcmd]
    simp only [Bool.false_eq_true, if_false]
    have hmatch : password_matches file.password ((some pw).getD "") = true := by
      rw [hpw]; simp [password_matches]
    rw [hmatch]
    rfl
  · intro hcmd hne
    unfold handle_passworded_file
    rw [hcmd]
    simp only [Bool.false_eq_true, if_false]
    have hmatch : password_matches file.password (text.getD "") = false := by
      rw [hpw]; simpa [password_matches] using fun h => hne h.symm
    rw [hmatch]
    rfl
  · intro hcmd
    unfold handle_passworded_file
    rw [hcmd]
    rfl
  · intro t c res c' h
    unfold handle_set_password at h
    by_cases hc : is_user_command t
    · rw [if_pos hc] at h
      exact SetPasswordResult.noConfusion (congrArg Prod.fst h)
    · rw [if_neg hc] at h
      cases hobj : c.object with
      | none =>
          rw [hobj] at h
          exact SetPasswordResult.noConfusion (congrArg Prod.fst h)
      | some f =>
          rw [hobj] at h
          have hres : res = t.getD "" :=
            (SetPasswordResult.saved.injEq _ _ ▸
              congrArg Prod.fst h).symm ▸ rfl
          cases t with
          | none => subst hres; rfl
          | some s =>
              subst hres
              simpa [is_user_command] using hc

/-- Witness for C7: the amended password-flow theorem at the concrete
protected file `pw_file`, a non-owner sender and the message `"wrong"`. -/
theorem password_flow_amended_witness :
    pw_file.password = some "hunter2" ∧ "hunter2" ≠ "" ∧ pw_file.owner_id ≠ 2 ∧
    (handle_get_file_found pw_file 2 { state := none, object := none } =
      (.promptPassword,
       { state := some .USER_SEND_PASSWORD_FOR_GET_FILE, object := some pw_file }) ∧
    (is_user_command (some "hunter2") = false →
      handle_passworded_file (some "hunter2")
          { state := some .USER_SEND_PASSWORD_FOR_GET_FILE, object := some pw_file } =
        (.sendFile, { state := none, object := none })) ∧
    (is_user_command (some "wrong") = false → (some "wrong").getD "" ≠ "hunter2" →
      handle_passworded_file (some "wrong")
          { state := some .USER_SEND_PASSWORD_FOR_GET_FILE, object := some pw_file } =
        (.reprompt,
         { state := some .USER_SEND_PASSWORD_FOR_GET_FILE, object := some pw_file })) ∧
    (is_user_command (some "wrong") = true →
      handle_passworded_file (some "wrong")
          { state := some .USER_SEND_PASSWORD_FOR_GET_FILE, object := some pw_file } =
        (.passThrough,
         { state := some .USER_SEND_PASSWORD_FOR_GET_FILE, object := some pw_file })) ∧
    (∀ (t : Option String) (c : UserConv) (res : String) (c' : UserConv),
      handle_set_password t c = (.saved res, c') →
      is_user_command (some res) = false)) :=
  ⟨rfl, by decide, by decide,
   password_flow_amended pw_file 2 { state := none, object := none }
     "hunter2" (some "wrong") rfl (by decide) (by decide)⟩

/-- **C8.** For every user, at most one live upload session exists at any
time (the manager is a per-user keyed map, so a user id resolves to at
most one session), and `start_session` always produces an empty session
for that user: the stored session has no files and zero total (so none of
any prior session's items survive — no merge), the manager maps the user
to exactly that session, and other users' entries are untouched. -/
theorem start_session_fresh (m : UploadSessionManager) (uid : Int) :
    (m.start_session uid).1 uid = some (m.start_session uid).2 ∧
    (m.start_session uid).2.files = [] ∧
    (m.start_session uid).2.total_size = 0 ∧
    (∀ f : UploadedFile, f ∉ (m.start_session uid).2.files) ∧
    (∀ u : Int, u ≠ uid → (m.start_session uid).1 u = m u) := by
  have happly : ∀ u, (m.start_session uid).1 u =
      if u = uid then some (m.start_session uid).2 else m u := by
    intro u
    unfold UploadSessionManager.start_session
    cases m uid <;> rfl
  refine ⟨?_, ?_, ?_, ?_, ?_⟩
  · rw [happly, if_pos rfl]
  · cases hm : m uid <;>
      simp [UploadSessionManager.start_session, hm, UploadSession.clear]
  · cases hm : m uid <;>
      simp [UploadSessionManager.start_session, hm, UploadSession.clear]
  · cases hm : m uid <;>
      simp [UploadSessionManager.start_session, hm, UploadSession.clear]
  · intro u hu
    rw [happly, if_neg hu]

/-- **C9.** For every user with an active upload session containing items
with backup message identifiers `m1..mn` (in insertion order), `cancel`
returns exactly the list `[m1, ..., mn]` and afterwards the user has no
session: a subsequent lookup returns `none`. -/
theorem cancel_session_returns_backups (m : UploadSessionManager)
    (uid : Int) (s : UploadSession) (h : m.get_session uid = some s) :
    (m.cancel_session uid).1 = s.files.map (fun f => f.message_id) ∧
    (m.cancel_session uid).2.get_session uid = none := by
  unfold UploadSessionManager.cancel_session
  rw [h]
  exact ⟨rfl, by
    simp [UploadSessionManager.end_session, UploadSessionManager.get_session]⟩

/-- Witness for C9: cancelling the concrete two-item session of
`witness_manager` returns `[1, 2]` and removes the session. -/
theorem cancel_session_returns_backups_witness :
    witness_manager.get_session 1 =
      some { user_id := 1, files := witness_files, total_size := 30 } ∧
    ((witness_manager.cancel_session 1).1 =
      ({ user_id := 1, files := witness_files,
         total_size := 30 } : UploadSession).files.map (fun f => f.message_id) ∧
     (witness_manager.cancel_session 1).2.get_session 1 = none) :=
  ⟨rfl, cancel_session_returns_backups witness_manager 1
    { user_id := 1, files := witness_files, total_size := 30 } rfl⟩

/-- The running total matches the items: `total_size` equals the sum of
the sizes of the files currently in the session. -/
def session_inv (s : UploadSession) : Prop :=
  s.total_size = (s.files.map (fun f => f.size)).sum

/-- The manager state visible after a manager call that may raise: the
updated map on success, the unmodified one when the exception propagated
(no partial mutation precedes either raise in `add_file`). -/
def state_after (m : UploadSessionManager)
    (r : Except PyError UploadSessionManager) : UploadSessionManager :=
  match r with
  | .ok m' => m'
  | .error _ => m

/-- **C10.** For every `UploadSession`, the running `total_size` field
equals the sum of the `size` fields of the items currently in the
session: the invariant holds for a newly created session, is preserved by
`UploadSession.add_file` and (re-)established by `clear`, survives the
always-failing manager-level `add_file` (which raises before mutating
anything), and holds for every session stored after `start_session`. -/
theorem total_size_matches_items :
    (∀ uid : Int, session_inv { user_id := uid }) ∧
    (∀ (s : UploadSession) (mi : Nat) (mt : String) (sz : Nat) (fid ah : Int)
       (fr : List Nat) (fn : Option String), session_inv s →
       session_inv (s.add_file mi mt sz fid ah fr fn)) ∧
    (∀ s : UploadSession, session_inv s.clear) ∧
    (∀ (m : UploadSessionManager) (uid : Int) (mi : Nat) (mt : String)
       (sz : Nat) (fn : Option String),
       (∀ u s, m u = some s → session_inv s) →
       ∀ u s, state_after m (m.add_file uid mi mt sz fn) u = some s →
         session_inv s) ∧
    (∀ (m : UploadSessionManager) (uid : Int),
       (∀ u' s', m u' = some s' → session_inv s') →
       ∀ u s, (m.start_session uid).1 u = some s → session_inv s) := by
  refine ⟨fun _ => rfl, ?_, fun _ => rfl, ?_, ?_⟩
  · intro s mi mt sz fid ah fr fn hinv
    unfold session_inv UploadSession.add_file at *
    simp [hinv]
  · intro m uid mi mt sz fn hinv u s h
    unfold UploadSessionManager.add_file at h
    cases hm : m uid <;> rw [hm] at h <;> exact hinv u s h
  · intro m uid hinv u s h
    unfold UploadSessionManager.start_session at h
    cases hm : m uid with
    | none =>
        rw [hm] at h
        simp only at h
        by_cases hu : u = uid
        · rw [if_pos hu] at h
          cases h
          rfl
        · rw [if_neg hu] at h
          exact hinv u s h
    | some old =>
        rw [hm] at h
        simp only at h
        by_cases hu : u = uid
        · rw [if_pos hu] at h
          cases h
          rfl
        · rw [if_neg hu] at h
          exact hinv u s h

/-- Witness for C10's hypothesis-bearing conjuncts: the invariant holds
for the concrete two-item session and is preserved by an `add_file`. -/
theorem total_size_matches_items_witness :
    session_inv { user_id := 1, files := witness_files, total_size := 30 } ∧
    session_inv
      (UploadSession.add_file
        { user_id := 1, files := witness_files, total_size := 30 }
        3 "voice" 7 9 9 [] none) :=
  ⟨rfl,
   total_size_matches_items.2.1
     { user_id := 1, files := witness_files, total_size := 30 }
     3 "voice" 7 9 9 [] none rfl⟩

end Cutly
